import Mathlib

/-!
Verification of the connection/environment negotiation and diagnostic
subsystem of the `wpmax` CLI (files `src/mysql-detector.js` and
`src/doctor.js`), shallowly embedded in Lean 4.

External effects (process invocations via `execa`, filesystem probes via
`fs`) are modelled by explicit environment records holding the outcome of
each external interaction: a command that throws is an `Except.error`
carrying its message, a command that resolves is `Except.ok` carrying its
stdout.  Each embedded function additionally returns the ordered trace of
external MySQL process invocations it performs, so that claims about
"no probe is attempted" are statable.
-/

deriving instance DecidableEq for Except

namespace Wpmax

/-! ## String infrastructure: substring testing (JS `String.includes`),
    matching of the version regexes, lower-casing. -/

/-- Decides (`isPrefixB p s`) whether the char list `p` is a prefix of `s`. -/
def isPrefixB : List Char → List Char → Bool
  | [], _ => true
  | _ :: _, [] => false
  | p :: ps, c :: cs => p == c && isPrefixB ps cs

/-- Decides (`hasInfixB p s`) whether the char list `p` occurs contiguously
    inside `s` (the model of JS `String.prototype.includes` and of a
    "contains verbatim" assertion on a message). -/
def hasInfixB (pat : List Char) : List Char → Bool
  | [] => isPrefixB pat []
  | c :: cs => isPrefixB pat (c :: cs) || hasInfixB pat cs

/-- Tests (`strHasSub s pat`) that the string `s` contains `pat` as a substring. -/
def strHasSub (s pat : String) : Bool := hasInfixB pat.data s.data

/-- Maximal run of leading decimal digits, and the rest (the model of a
    greedy `\d+`). -/
def takeDigits : List Char → List Char × List Char
  | [] => ([], [])
  | c :: cs =>
    if c.isDigit then
      let p := takeDigits cs
      (c :: p.1, p.2)
    else ([], c :: cs)

/-- Match `\d+\.\d+\.\d+` at the head of the input, returning the three
    digit groups. -/
def matchTriple (cs : List Char) : Option (List Char × List Char × List Char) :=
  let p1 := takeDigits cs
  if p1.1.isEmpty then none else
  match p1.2 with
  | '.' :: r2 =>
    let p2 := takeDigits r2
    if p2.1.isEmpty then none else
    match p2.2 with
    | '.' :: r4 =>
      let p3 := takeDigits r4
      if p3.1.isEmpty then none else some (p1.1, p2.1, p3.1)
    | _ => none
  | _ => none

/-- Computes (`dropPrefixB p s`): if `p` is a prefix of `s`, the remainder. -/
def dropPrefixB : List Char → List Char → Option (List Char)
  | [], s => some s
  | _ :: _, [] => none
  | p :: ps, c :: cs => if p == c then dropPrefixB ps cs else none

/-- Scan for the first position where the literal `pre` is followed by a
    `\d+\.\d+\.\d+` match: the model of
    `stdout.match(/PRE (\d+\.\d+\.\d+)/)` for a literal prefix `PRE `. -/
def scanTriple (pre : List Char) : List Char → Option (List Char × List Char × List Char)
  | [] => none
  | c :: cs =>
    match dropPrefixB pre (c :: cs) with
    | some rest =>
      match matchTriple rest with
      | some t => some t
      | none => scanTriple pre cs
    | none => scanTriple pre cs

/-- Numeric value of a digit group (the model of JS `Number` on a digit
    string). -/
def digitsToNat (ds : List Char) : Nat :=
  ds.foldl (fun n c => 10 * n + (c.toNat - 48)) 0

/-- The captured version string `maj.min.patch` from a triple match. -/
def tripleToString (t : List Char × List Char × List Char) : String :=
  String.mk (t.1 ++ '.' :: t.2.1 ++ '.' :: t.2.2)

/-- The model of `stdout.match(/PHP (\d+\.\d+\.\d+)/)` followed by
    `version.split('.').map(Number)`: the captured version string together
    with its numeric major and minor components. -/
def phpParseVersion (s : String) : Option (String × Nat × Nat) :=
  (scanTriple "PHP ".data s.data).map
    (fun t => (tripleToString t, digitsToNat t.1, digitsToNat t.2.1))

/-- The model of `stdout.match(/WP-CLI (\d+\.\d+\.\d+)/)?.[1]`. -/
def wpCliParseVersion (s : String) : Option String :=
  (scanTriple "WP-CLI ".data s.data).map tripleToString

/-! ## Connection prober (`src/mysql-detector.js`) -/

/-- Constant `COMMON_SOCKET_PATHS` from `src/mysql-detector.js`. -/
def COMMON_SOCKET_PATHS : List String :=
  ["/tmp/mysql_3306.sock",
   "/tmp/mysql.sock",
   "/var/run/mysqld/mysqld.sock",
   "/Applications/MAMP/tmp/mysql/mysql.sock",
   "/opt/homebrew/var/mysql/mysql.sock",
   "/usr/local/var/mysql/mysql.sock"]

/-- Constant `TCP_OPTIONS` from `src/mysql-detector.js`. -/
def TCP_OPTIONS : List String := ["127.0.0.1", "localhost"]

/-- A connection candidate: a TCP host or a Unix socket path. -/
inductive Cand
  | tcp (host : String)
  | sock (path : String)
deriving DecidableEq, Repr

/-- One external MySQL process invocation: the `mysql --version`
    precondition check, or a candidate probe (`testMysqlConnection`). -/
inductive Ev
  | version
  | probe (c : Cand)
deriving DecidableEq, Repr

/-- Behaviour of the external world as seen by the prober: whether
    `mysql --version` succeeds, the outcome of each TCP probe
    (`testMysqlConnection(null, host, user)`), `fs.existsSync` on socket
    paths, and the outcome of each socket probe
    (`testMysqlConnection(path, null, user)`). -/
structure MysqlEnv where
  mysqlClientOk : Bool
  tcpProbe : String → String → Bool
  sockExists : String → Bool
  sockProbe : String → String → Bool

/-- The `for (const host of TCP_OPTIONS)` loop of
    `detectMySQLConnection`: first succeeding host, plus the trace of
    probes issued. -/
def tryHosts (env : MysqlEnv) (user : String) : List String → Option String × List Ev
  | [] => (none, [])
  | h :: rest =>
    if env.tcpProbe user h then (some h, [Ev.probe (Cand.tcp h)])
    else
      let p := tryHosts env user rest
      (p.1, Ev.probe (Cand.tcp h) :: p.2)

/-- The `for (const socketPath of COMMON_SOCKET_PATHS)` loop of
    `detectMySQLConnection`: a non-existing path is skipped with no probe
    event; the first existing, succeeding path is returned. -/
def trySockets (env : MysqlEnv) (user : String) : List String → Option String × List Ev
  | [] => (none, [])
  | p :: rest =>
    if env.sockExists p then
      if env.sockProbe user p then (some p, [Ev.probe (Cand.sock p)])
      else
        let q := trySockets env user rest
        (q.1, Ev.probe (Cand.sock p) :: q.2)
    else trySockets env user rest

/-- Error message thrown when `mysql --version` fails. -/
def clientNotInstalledMessage : String :=
  "MySQL client is not installed or not in PATH. Please install MySQL."

/-- Error message thrown when every candidate fails, built exactly as in
    the source (`TCP_OPTIONS.map(h => `  - ${h}`).join('\n')` etc.). -/
def noConnectionMessage : String :=
  "Could not detect MySQL connection. Please ensure MySQL is running.\n" ++
  "\nTCP/IP connections tried:\n" ++
  String.intercalate "\n" (TCP_OPTIONS.map (fun h => "  - " ++ h)) ++
  "\n\nSocket locations checked:\n" ++
  String.intercalate "\n" (COMMON_SOCKET_PATHS.map (fun p => "  - " ++ p))

/-- Embedding of `detectMySQLConnection(user)` from `src/mysql-detector.js`: result
    (`Except.error` models a thrown `Error`) together with the trace of
    external MySQL process invocations. -/
def detectMySQLConnection (env : MysqlEnv) (user : String) :
    Except String String × List Ev :=
  if env.mysqlClientOk then
    match tryHosts env user TCP_OPTIONS with
    | (some h, tr) => (Except.ok h, Ev.version :: tr)
    | (none, tr) =>
      match trySockets env user COMMON_SOCKET_PATHS with
      | (some p, tr2) => (Except.ok ("localhost:" ++ p), Ev.version :: (tr ++ tr2))
      | (none, tr2) => (Except.error noConnectionMessage, Ev.version :: (tr ++ tr2))
  else (Except.error clientNotInstalledMessage, [Ev.version])

/-- JS property lookup `connectionCache[user]` on the cache object. -/
def cacheLookup (user : String) : List (String × String) → Option String
  | [] => none
  | (k, v) :: t => if k == user then some v else cacheLookup user t

/-- Embedding of `getMySQLConnection(user)` from `src/mysql-detector.js`.  The
    process-wide `connectionCache` object is passed and returned
    explicitly.  `if (!connectionCache[user])` is a JS falsiness test:
    both an absent key and an empty-string value re-probe. -/
def getMySQLConnection (env : MysqlEnv) (cache : List (String × String))
    (user : String) :
    Except String String × List (String × String) × List Ev :=
  if (cacheLookup user cache).getD "" == "" then
    match detectMySQLConnection env user with
    | (Except.ok r, tr) => (Except.ok r, (user, r) :: cache, tr)
    | (Except.error e, tr) => (Except.error e, cache, tr)
  else ((cacheLookup user cache).getD "" |> Except.ok, cache, [])

/-! ## Specification-side vocabulary for the prober claims -/

/-- The full candidate list in the source's fixed trial order: both TCP
    hosts, then the six socket paths in declared order. -/
def candidates : List Cand :=
  TCP_OPTIONS.map Cand.tcp ++ COMMON_SOCKET_PATHS.map Cand.sock

/-- A candidate is eligible for probing: TCP hosts always are; a socket
    path only when it exists on the filesystem. -/
def eligible (env : MysqlEnv) : Cand → Bool
  | Cand.tcp _ => true
  | Cand.sock p => env.sockExists p

/-- Whether the probe of a candidate succeeds. -/
def succeeds (env : MysqlEnv) (user : String) : Cand → Bool
  | Cand.tcp h => env.tcpProbe user h
  | Cand.sock p => env.sockProbe user p

/-- The normalized `ConnectionResult` encoding: bare host for TCP,
    `localhost:<path>` for a socket. -/
def encode : Cand → String
  | Cand.tcp h => h
  | Cand.sock p => "localhost:" ++ p

/-- The prefix of a list up to and including the first element satisfying
    `p` (the whole list when none does). -/
def traceUpTo (p : α → Bool) : List α → List α
  | [] => []
  | c :: rest => if p c then [c] else c :: traceUpTo p rest

/-- Cache well-formedness invariant holding for every reachable state of
    the process-wide `connectionCache` object: one entry per identity, and
    no entry holds the empty string (a JS-falsy value). -/
def cacheWF (c : List (String × String)) : Prop :=
  (c.map Prod.fst).Nodup ∧ ∀ pr ∈ c, pr.2 ≠ ""

/-! ## Diagnostics engine (`src/doctor.js`)

Each check method of `DoctorCheck` is embedded as a total function from
the external-world behaviour (`DoctorEnv`) and the instance's current
`issues` list to its JS result object and the updated `issues` list; a
`try { … } catch { … }` body appears as a match on the `Except`-valued
outcome of the external calls it awaits, the catch branch handling
`Except.error`.  Totality of these functions is the embedding of the rule
that no check method throws. -/

/-- One entry of `this.issues`: `{description, fix}`. -/
structure Issue where
  description : String
  fix : String
deriving DecidableEq, Repr

/-- Result object of `checkWpCli`. -/
structure WpCliResult where
  ok : Bool
  version : Option String := none
  error : Option String := none
deriving DecidableEq, Repr

/-- Result object of `checkPhp`. -/
structure PhpResult where
  ok : Bool
  version : Option String := none
  missingExtensions : Option (List String) := none
  error : Option String := none
deriving DecidableEq, Repr

/-- Result object of `checkMySQL`. -/
structure MySQLCheckResult where
  ok : Bool
  connection : Option String := none
  error : Option String := none
deriving DecidableEq, Repr

/-- Result object of `checkHerd`. -/
structure HerdResult where
  ok : Bool
  installed : Bool
  version : Option String := none
deriving DecidableEq, Repr

/-- Result object of `checkPermissions`. -/
structure PermResult where
  ok : Bool
  failedDirs : Option (List String) := none
deriving DecidableEq, Repr

/-- Result object of `checkConfig` (`fileExists` embeds the JS key
    `exists`, a reserved word in Lean). -/
structure ConfigResult where
  ok : Bool
  fileExists : Option Bool := none
  path : Option String := none
  hasSettings : Option Bool := none
  error : Option String := none
deriving DecidableEq, Repr

/-- Result of `getEnvironmentInfo`. -/
structure EnvInfo where
  os : String
  osVersion : String
  node : String
  arch : String
  shell : String
  configPath : String
deriving DecidableEq, Repr

/-- The aggregate object returned by `runAllChecks`. -/
structure Report where
  wpCli : WpCliResult
  php : PhpResult
  mysql : MySQLCheckResult
  herd : HerdResult
  permissions : PermResult
  config : ConfigResult
  environment : EnvInfo
  issues : List Issue
deriving DecidableEq, Repr

/-- External-world behaviour seen by the diagnostics engine.  Each
    `Except String String` field is the outcome of one external command
    (`Except.ok` stdout, or `Except.error` for a rejection); Bool fields
    are `fs.existsSync` / write-permission outcomes. -/
structure DoctorEnv where
  wpCliExists : Bool
  wpCliVersionCmd : Except String String
  phpVersionCmd : Except String String
  phpModulesCmd : Except String String
  mysql : MysqlEnv
  herdVersionCmd : Except String String
  cwd : String
  homedir : String
  sitesDirExists : Bool
  writeOk : String → Bool
  configLoad : Except String Nat
  configFileExists : Bool
  platform : String
  osRelease : String
  nodeVersion : String
  arch : String
  shellEnv : Option String

/-- A `DoctorCheck` instance; the constructor sets both lists empty. -/
structure DoctorCheck where
  checks : List Issue
  issues : List Issue

/-- Constructor `new DoctorCheck()`. -/
def DoctorCheck.new : DoctorCheck := { checks := [], issues := [] }

/-- Embedding of `path.join` as used here: join with a single separator. -/
def pathJoin (a b : String) : String := a ++ "/" ++ b

/-- Embedding of `DoctorCheck.checkWpCli`. -/
def checkWpCli (env : DoctorEnv) (issues : List Issue) :
    WpCliResult × List Issue :=
  if !env.wpCliExists then
    ({ ok := false, error := some "Not found" },
     issues ++ [⟨"WP-CLI not found", "Will be auto-downloaded on first site creation"⟩])
  else
    match env.wpCliVersionCmd with
    | Except.ok stdout =>
      ({ ok := true, version := some ((wpCliParseVersion stdout).getD "unknown") },
       issues)
    | Except.error _ =>
      ({ ok := false, error := some "Not accessible" },
       issues ++ [⟨"WP-CLI not accessible", "Ensure PHP is installed and WP-CLI phar is executable"⟩])

/-- The fixed `required` extension list of `checkPhp`. -/
def requiredExtensions : List String := ["mysqli", "curl", "json", "mbstring"]

/-- Embedding of `DoctorCheck.checkPhp`.  The catch branch (`Not installed`) is
    reached when `php --version` rejects, when no version parses
    (`throw new Error('Could not parse PHP version')`), or when `php -m`
    rejects. -/
def checkPhp (env : DoctorEnv) (issues : List Issue) :
    PhpResult × List Issue :=
  let fail := fun (iss : List Issue) =>
    (({ ok := false, error := some "Not installed" } : PhpResult),
     iss ++ [⟨"PHP not found", "Install PHP: brew install php (macOS) or apt install php (Linux)"⟩])
  match env.phpVersionCmd with
  | Except.error _ => fail issues
  | Except.ok stdout =>
    match phpParseVersion stdout with
    | none => fail issues
    | some (version, major, minor) =>
      let issues1 :=
        if major < 7 ∨ (major = 7 ∧ minor < 4) then
          issues ++ [⟨"PHP " ++ version ++ " is outdated (minimum: 7.4)",
                      "Update PHP: brew upgrade php (macOS) or apt upgrade php (Linux)"⟩]
        else issues
      match env.phpModulesCmd with
      | Except.error _ => fail issues1
      | Except.ok extensions =>
        let missing := requiredExtensions.filter
          (fun ext => !(strHasSub extensions.toLower ext.toLower))
        let issues2 :=
          if missing.length > 0 then
            issues1 ++ [⟨"Missing PHP extensions: " ++ String.intercalate ", " missing,
                         "Install missing extensions via your PHP package manager"⟩]
          else issues1
        ({ ok := true, version := some version, missingExtensions := some missing },
         issues2)

/-- Embedding of `DoctorCheck.checkMySQL`: its own `mysql --version` precondition in a
    first try/catch, then `detectMySQLConnection('root')` in a second. -/
def checkMySQL (env : DoctorEnv) (issues : List Issue) :
    MySQLCheckResult × List Issue :=
  if !env.mysql.mysqlClientOk then
    ({ ok := false, error := some "MySQL client not installed" },
     issues ++ [⟨"MySQL client not found", "Install MySQL: brew install mysql (macOS) or install Laravel Herd"⟩])
  else
    match (detectMySQLConnection env.mysql "root").1 with
    | Except.ok connection =>
      ({ ok := true, connection := some connection }, issues)
    | Except.error _ =>
      ({ ok := false, error := some "Not accessible" },
       issues ++ [⟨"MySQL not accessible", "Start MySQL: brew services start mysql, or install/start Laravel Herd"⟩])

/-- Embedding of `DoctorCheck.checkHerd` (via `isHerdInstalled`, which itself catches
    and returns a boolean; a failing probe degrades to not-installed and
    never appends an issue). -/
def checkHerd (env : DoctorEnv) (issues : List Issue) :
    HerdResult × List Issue :=
  match env.herdVersionCmd with
  | Except.ok stdout =>
    ({ ok := true, installed := true, version := some stdout.trim }, issues)
  | Except.error _ => ({ ok := true, installed := false }, issues)

/-- Loop body of `checkPermissions`: try the write-then-delete round trip
    in `dir`; on failure record the dir and push an issue. -/
def permStep (env : DoctorEnv) (acc : List String × List Issue)
    (dir : String) : List String × List Issue :=
  if env.writeOk dir then acc
  else (acc.1 ++ [dir],
        acc.2 ++ [⟨"No write permission: " ++ dir, "chmod 755 " ++ dir⟩])

/-- The `testDirs` list of `checkPermissions`: the current directory
    always, `~/Sites` only when it exists. -/
def permTestDirs (env : DoctorEnv) : List String :=
  [env.cwd] ++ (if env.sitesDirExists then [pathJoin env.homedir "Sites"] else [])

/-- Embedding of `DoctorCheck.checkPermissions`. -/
def checkPermissions (env : DoctorEnv) (issues : List Issue) :
    PermResult × List Issue :=
  if (List.foldl (permStep env) ([], issues) (permTestDirs env)).1.length > 0 then
    ({ ok := false,
       failedDirs := some (List.foldl (permStep env) ([], issues) (permTestDirs env)).1 },
     (List.foldl (permStep env) ([], issues) (permTestDirs env)).2)
  else
    ({ ok := true }, (List.foldl (permStep env) ([], issues) (permTestDirs env)).2)

/-- Embedding of `DoctorCheck.checkConfig`; `env.configLoad` is the number of keys of
    `getConfig()` or the thrown error's message. -/
def checkConfig (env : DoctorEnv) (issues : List Issue) :
    ConfigResult × List Issue :=
  match env.configLoad with
  | Except.ok keyCount =>
    ({ ok := true, fileExists := some env.configFileExists,
       path := some (pathJoin (pathJoin (pathJoin env.homedir ".config") "wpmax") "config.json"),
       hasSettings := some (keyCount > 0) }, issues)
  | Except.error msg =>
    ({ ok := false, error := some msg },
     issues ++ [⟨"Config file error", "Run any wpmax command to regenerate config"⟩])

/-- Embedding of `DoctorCheck.getEnvironmentInfo` (`process.env.SHELL || 'unknown'` is
    a JS falsiness test: an unset or empty variable gives `unknown`). -/
def getEnvironmentInfo (env : DoctorEnv) : EnvInfo :=
  { os := env.platform
    osVersion := env.osRelease
    node := env.nodeVersion
    arch := env.arch
    shell :=
      match env.shellEnv with
      | some sh => if sh == "" then "unknown" else sh
      | none => "unknown"
    configPath := pathJoin (pathJoin env.homedir ".config") "wpmax" }

/-- Embedding of `DoctorCheck.runAllChecks`: the six checks in declared order, each
    threading the instance's `issues` list, plus the environment info. -/
def runAllChecks (env : DoctorEnv) (self : DoctorCheck) : Report :=
  { wpCli := (checkWpCli env self.issues).1
    php := (checkPhp env (checkWpCli env self.issues).2).1
    mysql := (checkMySQL env (checkPhp env (checkWpCli env self.issues).2).2).1
    herd := (checkHerd env (checkMySQL env (checkPhp env (checkWpCli env self.issues).2).2).2).1
    permissions := (checkPermissions env (checkHerd env (checkMySQL env (checkPhp env (checkWpCli env self.issues).2).2).2).2).1
    config := (checkConfig env (checkPermissions env (checkHerd env (checkMySQL env (checkPhp env (checkWpCli env self.issues).2).2).2).2).2).1
    environment := getEnvironmentInfo env
    issues := (checkConfig env (checkPermissions env (checkHerd env (checkMySQL env (checkPhp env (checkWpCli env self.issues).2).2).2).2).2).2 }

/-- Every external dependency failing: both filesystem existence probes
    false, every external command rejecting, every directory write
    failing, the config load throwing. -/
def DoctorEnv.allFail (env : DoctorEnv) : Prop :=
  env.wpCliExists = false ∧
  env.wpCliVersionCmd.isOk = false ∧
  env.phpVersionCmd.isOk = false ∧
  env.phpModulesCmd.isOk = false ∧
  env.mysql.mysqlClientOk = false ∧
  env.herdVersionCmd.isOk = false ∧
  (∀ d, env.writeOk d = false) ∧
  env.configLoad.isOk = false

/-- A fully healthy external world, used to instantiate theorems at a
    concrete input. -/
def baseDoctorEnv : DoctorEnv :=
  { wpCliExists := true
    wpCliVersionCmd := Except.ok "WP-CLI 2.9.0"
    phpVersionCmd := Except.ok "PHP 8.2.15 (cli)"
    phpModulesCmd := Except.ok "mysqli\ncurl\njson\nmbstring\nxml"
    mysql := { mysqlClientOk := true
               tcpProbe := fun _ h => h == "127.0.0.1"
               sockExists := fun _ => false
               sockProbe := fun _ _ => false }
    herdVersionCmd := Except.ok "Laravel Herd 1.7.3"
    cwd := "/work"
    homedir := "/home/u"
    sitesDirExists := false
    writeOk := fun _ => true
    configLoad := Except.ok 1
    configFileExists := true
    platform := "darwin"
    osRelease := "23.0.0"
    nodeVersion := "v20.0.0"
    arch := "arm64"
    shellEnv := some "/bin/zsh" }

/-- An external world in which every dependency fails. -/
def doctorEnvAllFail : DoctorEnv :=
  { baseDoctorEnv with
    wpCliExists := false
    wpCliVersionCmd := Except.error "spawn failed"
    phpVersionCmd := Except.error "spawn failed"
    phpModulesCmd := Except.error "spawn failed"
    mysql := { mysqlClientOk := false
               tcpProbe := fun _ _ => false
               sockExists := fun _ => false
               sockProbe := fun _ _ => false }
    herdVersionCmd := Except.error "spawn failed"
    writeOk := fun _ => false
    configLoad := Except.error "Invalid JSON"
    configFileExists := false }

/-- An external world where `php --version` succeeds (the interpreter is
    invocable, with a modern version) but `php -m` rejects. -/
def phpEnvModulesFail : DoctorEnv :=
  { baseDoctorEnv with phpModulesCmd := Except.error "spawn failed" }

/-- An external world reporting PHP 7.3.0 with all required extensions
    present. -/
def phpEnvOld : DoctorEnv :=
  { baseDoctorEnv with phpVersionCmd := Except.ok "PHP 7.3.0 (cli)" }

/-- WP-CLI phar file missing. -/
def wpCliMissingEnv : DoctorEnv := { baseDoctorEnv with wpCliExists := false }

/-- WP-CLI phar present but its invocation rejects. -/
def wpCliErrEnv : DoctorEnv :=
  { baseDoctorEnv with wpCliVersionCmd := Except.error "spawn failed" }

/-- Environment with the `mysql` client not invocable. -/
def mysqlClientMissingEnv : DoctorEnv :=
  { baseDoctorEnv with
    mysql := { mysqlClientOk := false
               tcpProbe := fun _ _ => false
               sockExists := fun _ => false
               sockProbe := fun _ _ => false } }

/-- Environment with the `mysql` client invocable but no transport negotiable. -/
def mysqlNoTransportEnv : DoctorEnv :=
  { baseDoctorEnv with
    mysql := { mysqlClientOk := true
               tcpProbe := fun _ _ => false
               sockExists := fun _ => false
               sockProbe := fun _ _ => false } }

end Wpmax

namespace Wpmax

/-! ## Structure lemmas about the prober loops -/

theorem succeeds_comp_tcp (env : MysqlEnv) (user : String) :
    succeeds env user ∘ Cand.tcp = env.tcpProbe user := by
  funext h; rfl

theorem succeeds_comp_sock (env : MysqlEnv) (user : String) :
    succeeds env user ∘ Cand.sock = env.sockProbe user := by
  funext p; rfl

theorem tryHosts_eq (env : MysqlEnv) (user : String) : ∀ l : List String,
    tryHosts env user l =
      (l.find? (env.tcpProbe user),
       (traceUpTo (succeeds env user) (l.map Cand.tcp)).map Ev.probe) := by
  intro l
  induction l with
  | nil => rfl
  | cons h t ih =>
    cases hp : env.tcpProbe user h with
    | true => simp [tryHosts, traceUpTo, succeeds, hp]
    | false => simp [tryHosts, traceUpTo, succeeds, hp, ih]

theorem trySockets_eq (env : MysqlEnv) (user : String) : ∀ l : List String,
    trySockets env user l =
      ((l.filter env.sockExists).find? (env.sockProbe user),
       (traceUpTo (succeeds env user)
          ((l.filter env.sockExists).map Cand.sock)).map Ev.probe) := by
  intro l
  induction l with
  | nil => rfl
  | cons p t ih =>
    cases he : env.sockExists p with
    | false => simp [trySockets, he, ih, List.filter_cons]
    | true =>
      cases hp : env.sockProbe user p with
      | true => simp [trySockets, traceUpTo, succeeds, he, hp, List.filter_cons]
      | false => simp [trySockets, traceUpTo, succeeds, he, hp, ih, List.filter_cons]

theorem eligible_candidates (env : MysqlEnv) :
    candidates.filter (eligible env) =
      TCP_OPTIONS.map Cand.tcp ++
        (COMMON_SOCKET_PATHS.filter env.sockExists).map Cand.sock := by
  rw [candidates, List.filter_append, List.filter_map, List.filter_map]
  have h1 : eligible env ∘ Cand.tcp = fun _ => true := by funext x; rfl
  have h2 : eligible env ∘ Cand.sock = env.sockExists := by funext x; rfl
  rw [h1, h2, List.filter_true]

theorem traceUpTo_of_find_none (p : α → Bool) :
    ∀ a : List α, a.find? p = none → traceUpTo p a = a := by
  intro a
  induction a with
  | nil => intro _; rfl
  | cons x t ih =>
    intro h
    cases hx : p x with
    | true => rw [List.find?_cons_of_pos _ hx] at h; exact absurd h (by simp)
    | false =>
      rw [List.find?_cons_of_neg _ (by simp [hx])] at h
      simp [traceUpTo, hx, ih h]

theorem traceUpTo_append_of_none (p : α → Bool) :
    ∀ a b : List α, a.find? p = none →
      traceUpTo p (a ++ b) = a ++ traceUpTo p b := by
  intro a
  induction a with
  | nil => intro b _; rfl
  | cons x t ih =>
    intro b h
    cases hx : p x with
    | true => rw [List.find?_cons_of_pos _ hx] at h; exact absurd h (by simp)
    | false =>
      rw [List.find?_cons_of_neg _ (by simp [hx])] at h
      simp [traceUpTo, hx, ih b h]

theorem traceUpTo_append_of_some (p : α → Bool) :
    ∀ a b : List α, ∀ c : α, a.find? p = some c →
      traceUpTo p (a ++ b) = traceUpTo p a := by
  intro a
  induction a with
  | nil => intro b c h; exact absurd h (by simp)
  | cons x t ih =>
    intro b c h
    cases hx : p x with
    | true => simp [traceUpTo, hx]
    | false =>
      rw [List.find?_cons_of_neg _ (by simp [hx])] at h
      simp [traceUpTo, hx, ih b c h]

/-- Claim C1. For every assignment of probe outcomes (`env`) with an
invocable client, `detectMySQLConnection` returns the normalized encoding
of the first succeeding candidate in the fixed trial order (both TCP hosts
`"127.0.0.1"` then `"localhost"`, then the six configured socket paths in
declared order, a socket path whose filesystem path does not exist being
skipped): the eligible-candidate list is `candidates.filter (eligible env)`
and `c` is its first succeeding member.  The returned value is the bare
host for a TCP winner and `"localhost:<path>"` for a socket winner
(`encode c`), and the probe trace is exactly the eligible candidates up to
and including the winner — a skipped socket is never probed and no later
candidate is probed once one succeeds. -/
theorem detect_first_success (env : MysqlEnv) (user : String) (c : Cand)
    (hclient : env.mysqlClientOk = true)
    (hfind : (candidates.filter (eligible env)).find? (succeeds env user) = some c) :
    detectMySQLConnection env user =
      (Except.ok (encode c),
       Ev.version ::
         (traceUpTo (succeeds env user)
            (candidates.filter (eligible env))).map Ev.probe) := by
  rw [eligible_candidates] at hfind ⊢
  rw [List.find?_append] at hfind
  cases h1 : TCP_OPTIONS.find? (env.tcpProbe user) with
  | some h =>
    have hT : (TCP_OPTIONS.map Cand.tcp).find? (succeeds env user) = some (Cand.tcp h) := by
      rw [List.find?_map, succeeds_comp_tcp, h1]; rfl
    rw [hT] at hfind
    simp only [Option.or_some] at hfind
    cases hfind
    rw [traceUpTo_append_of_some _ _ _ _ hT]
    simp [detectMySQLConnection, hclient, tryHosts_eq, h1, encode]
  | none =>
    have hT : (TCP_OPTIONS.map Cand.tcp).find? (succeeds env user) = none := by
      rw [List.find?_map, succeeds_comp_tcp, h1]; rfl
    rw [hT, Option.none_or] at hfind
    cases h2 : (COMMON_SOCKET_PATHS.filter env.sockExists).find? (env.sockProbe user) with
    | some p =>
      have hS : ((COMMON_SOCKET_PATHS.filter env.sockExists).map Cand.sock).find?
          (succeeds env user) = some (Cand.sock p) := by
        rw [List.find?_map, succeeds_comp_sock, h2]; rfl
      rw [hS] at hfind
      cases hfind
      rw [traceUpTo_append_of_none _ _ _ hT]
      simp [detectMySQLConnection, hclient, tryHosts_eq, trySockets_eq, h1, h2, encode,
        traceUpTo_of_find_none _ _ hT]
    | none =>
      have hS : ((COMMON_SOCKET_PATHS.filter env.sockExists).map Cand.sock).find?
          (succeeds env user) = none := by
        rw [List.find?_map, succeeds_comp_sock, h2]; rfl
      rw [hS] at hfind
      exact absurd hfind (by simp)

/-- Witness for C1, the spec's Scenario A: both TCP probes fail,
`/tmp/mysql.sock` exists and succeeds, every other socket path does not
exist — the result is `"localhost:/tmp/mysql.sock"` and the probe trace is
the version check, both TCP probes, and the single socket probe. -/
theorem detect_first_success_witness :
    detectMySQLConnection
        { mysqlClientOk := true
          tcpProbe := fun _ _ => false
          sockExists := fun p => p == "/tmp/mysql.sock"
          sockProbe := fun _ p => p == "/tmp/mysql.sock" } "root" =
      (Except.ok (encode (Cand.sock "/tmp/mysql.sock")),
       Ev.version ::
         (traceUpTo
            (succeeds
              { mysqlClientOk := true
                tcpProbe := fun _ _ => false
                sockExists := fun p => p == "/tmp/mysql.sock"
                sockProbe := fun _ p => p == "/tmp/mysql.sock" } "root")
            (candidates.filter (eligible
              { mysqlClientOk := true
                tcpProbe := fun _ _ => false
                sockExists := fun p => p == "/tmp/mysql.sock"
                sockProbe := fun _ p => p == "/tmp/mysql.sock" }))).map Ev.probe) :=
  detect_first_success _ "root" (Cand.sock "/tmp/mysql.sock") (by decide) (by decide)

/-- Claim C3. If `mysql --version` fails, `detectMySQLConnection` throws the
client-not-installed error immediately: the only external invocation in
the trace is the version check itself — no TCP candidate and no socket
candidate is probed. -/
theorem detect_client_missing (env : MysqlEnv) (user : String)
    (h : env.mysqlClientOk = false) :
    detectMySQLConnection env user =
      (Except.error clientNotInstalledMessage, [Ev.version]) := by
  simp [detectMySQLConnection, h]

/-- Witness for C3: with a failing client and every probe rigged to
succeed, the prober still stops after the version check alone. -/
theorem detect_client_missing_witness :
    detectMySQLConnection
        { mysqlClientOk := false
          tcpProbe := fun _ _ => true
          sockExists := fun _ => true
          sockProbe := fun _ _ => true } "root" =
      (Except.error clientNotInstalledMessage, [Ev.version]) :=
  detect_client_missing _ "root" (by decide)

set_option maxRecDepth 40000 in
/-- Claim C7. When every candidate fails (both TCP hosts fail, and every
socket path that exists fails), `detectMySQLConnection` throws the
no-connection error, and that error's message contains, verbatim, every
TCP option string and every configured socket path string. -/
theorem detect_all_fail_message (env : MysqlEnv) (user : String)
    (hclient : env.mysqlClientOk = true)
    (htcp : ∀ h ∈ TCP_OPTIONS, env.tcpProbe user h = false)
    (hsock : ∀ p ∈ COMMON_SOCKET_PATHS, env.sockExists p = true →
      env.sockProbe user p = false) :
    (detectMySQLConnection env user).1 = Except.error noConnectionMessage ∧
    ∀ s ∈ TCP_OPTIONS ++ COMMON_SOCKET_PATHS,
      strHasSub noConnectionMessage s = true := by
  constructor
  · have h1 : TCP_OPTIONS.find? (env.tcpProbe user) = none := by
      rw [List.find?_eq_none]
      intro x hx
      simp [htcp x hx]
    have h2 : (COMMON_SOCKET_PATHS.filter env.sockExists).find?
        (env.sockProbe user) = none := by
      rw [List.find?_eq_none]
      intro x hx
      have hm := List.mem_filter.mp hx
      simp [hsock x hm.1 hm.2]
    simp [detectMySQLConnection, hclient, tryHosts_eq, trySockets_eq, h1, h2]
  · decide

set_option maxRecDepth 40000 in
/-- Witness for C7: an environment where the client is invocable, all
sockets exist, and every probe fails. -/
theorem detect_all_fail_message_witness :
    ((detectMySQLConnection
        { mysqlClientOk := true
          tcpProbe := fun _ _ => false
          sockExists := fun _ => true
          sockProbe := fun _ _ => false } "root").1 =
      Except.error noConnectionMessage ∧
    ∀ s ∈ TCP_OPTIONS ++ COMMON_SOCKET_PATHS,
      strHasSub noConnectionMessage s = true) :=
  detect_all_fail_message _ "root" (by decide) (by decide) (by decide)

/-! ## The connection cache (`getMySQLConnection`) -/

theorem cacheLookup_some_mem {u v : String} :
    ∀ {c : List (String × String)}, cacheLookup u c = some v → (u, v) ∈ c := by
  intro c
  induction c with
  | nil => intro h; exact absurd h (by simp [cacheLookup])
  | cons pr t ih =>
    intro h
    match pr with
    | (k, w) =>
      rw [cacheLookup] at h
      by_cases hk : (k == u) = true
      · rw [if_pos hk] at h
        cases h
        have : k = u := by simpa using hk
        subst this
        exact List.mem_cons_self _ _
      · rw [if_neg hk] at h
        exact List.mem_cons_of_mem _ (ih h)

theorem cacheLookup_none_not_mem {u : String} :
    ∀ {c : List (String × String)}, cacheLookup u c = none →
      u ∉ c.map Prod.fst := by
  intro c
  induction c with
  | nil => intro _; simp
  | cons pr t ih =>
    intro h
    match pr with
    | (k, w) =>
      rw [cacheLookup] at h
      by_cases hk : (k == u) = true
      · rw [if_pos hk] at h; exact absurd h (by simp)
      · rw [if_neg hk] at h
        have hku : k ≠ u := by simpa using hk
        simp only [List.map_cons, List.mem_cons]
        rintro (rfl | hm)
        · exact hku rfl
        · exact ih h hm

theorem detect_ok_ne_empty (env : MysqlEnv) (user : String) (r : String)
    (h : (detectMySQLConnection env user).1 = Except.ok r) : r ≠ "" := by
  rw [detectMySQLConnection] at h
  by_cases hc : env.mysqlClientOk = true
  · rw [if_pos hc, tryHosts_eq] at h
    cases h1 : TCP_OPTIONS.find? (env.tcpProbe user) with
    | some x =>
      rw [h1] at h
      simp only at h
      cases h
      have hm := List.mem_of_find?_eq_some h1
      simp only [TCP_OPTIONS, List.mem_cons, List.not_mem_nil, or_false] at hm
      rcases hm with rfl | rfl <;> decide
    | none =>
      rw [h1, trySockets_eq] at h
      cases h2 : (COMMON_SOCKET_PATHS.filter env.sockExists).find?
          (env.sockProbe user) with
      | some p =>
        rw [h2] at h
        simp only at h
        cases h
        intro hcontra
        have := congrArg String.data hcontra
        simp [String.data_append] at this
      | none => rw [h2] at h; exact absurd h (by simp)
  · rw [if_neg hc] at h; exact absurd h (by simp)

/-- Claim C4. The cache caches per identity.  If a call for identity `user`
succeeds with result `r` and cache `c'`, then: a subsequent call with the
same identity returns the stored `r` with the cache unchanged and an empty
trace of external invocations (no client-version check, no probe); the
entry of every other identity is untouched; an identity absent from `c'`
still triggers an independent full probe (its call behaves exactly as
`detectMySQLConnection` for that identity, caching under its own key on
success); and well-formedness — at most one cached entry per identity —
is preserved. -/
theorem getMySQL_cache_per_identity (env : MysqlEnv)
    (cache : List (String × String)) (user r : String)
    (c' : List (String × String)) (tr : List Ev)
    (h : getMySQLConnection env cache user = (Except.ok r, c', tr)) :
    getMySQLConnection env c' user = (Except.ok r, c', []) ∧
    (∀ u', u' ≠ user → cacheLookup u' c' = cacheLookup u' cache) ∧
    (∀ u', cacheLookup u' c' = none →
      getMySQLConnection env c' u' =
        ((detectMySQLConnection env u').1,
         (match detectMySQLConnection env u' with
          | (Except.ok s, _) => (u', s) :: c'
          | (Except.error _, _) => c'),
         (detectMySQLConnection env u').2)) ∧
    (cacheWF cache → cacheWF c') := by
  rw [getMySQLConnection] at h
  by_cases hcond : ((cacheLookup user cache).getD "" == "") = true
  · -- cache miss (or falsy cached value): a fresh probe ran
    rw [if_pos hcond] at h
    cases hd : detectMySQLConnection env user with
    | mk fst tr0 =>
      rw [hd] at h
      cases fst with
      | error e => exact absurd h (by simp)
      | ok r0 =>
        simp only [Prod.mk.injEq, Except.ok.injEq] at h
        obtain ⟨rfl, rfl, rfl⟩ := h
        have hr : r0 ≠ "" :=
          detect_ok_ne_empty env user r0 (by rw [hd])
        refine ⟨?_, ?_, ?_, ?_⟩
        · rw [getMySQLConnection]
          have hls : cacheLookup user ((user, r0) :: cache) = some r0 := by
            simp [cacheLookup]
          rw [hls]
          simp only [Option.getD_some]
          rw [if_neg (by simpa using hr)]
        · intro u' hu
          simp [cacheLookup, beq_eq_false_iff_ne.mpr (Ne.symm hu)]
        · intro u' hl
          rw [getMySQLConnection, hl]
          simp only [Option.getD_none]
          rw [if_pos (by rfl)]
          cases hd' : detectMySQLConnection env u' with
          | mk fst' tr' =>
            cases fst' with
            | ok s => simp
            | error e => simp
        · rintro ⟨hnd, hne⟩
          have hl : cacheLookup user cache = none := by
            cases hl : cacheLookup user cache with
            | none => rfl
            | some v =>
              rw [hl] at hcond
              simp only [Option.getD_some] at hcond
              have : v = "" := by simpa using hcond
              exact absurd this (hne _ (cacheLookup_some_mem hl))
          constructor
          · rw [List.map_cons, List.nodup_cons]
            exact ⟨cacheLookup_none_not_mem hl, hnd⟩
          · intro pr hpr
            rcases List.mem_cons.mp hpr with rfl | hm
            · exact hr
            · exact hne _ hm
  · -- cache hit: stored value returned, nothing changes
    rw [if_neg hcond] at h
    simp only [Prod.mk.injEq, Except.ok.injEq] at h
    obtain ⟨hr, rfl, rfl⟩ := h
    refine ⟨?_, fun _ _ => rfl, ?_, fun hwf => hwf⟩
    · rw [getMySQLConnection, if_neg hcond, hr]
    · intro u' hl
      rw [getMySQLConnection, hl]
      simp only [Option.getD_none]
      rw [if_pos (by rfl)]
      cases hd' : detectMySQLConnection env u' with
      | mk fst' tr' =>
        cases fst' with
        | ok s => simp
        | error e => simp

/-- Witness for C4: starting from an empty cache with only the first TCP
probe succeeding, the first call probes and caches `"127.0.0.1"` under
`"root"`; the theorem then yields the cached second call. -/
theorem getMySQL_cache_per_identity_witness :
    getMySQLConnection
        { mysqlClientOk := true
          tcpProbe := fun _ h => h == "127.0.0.1"
          sockExists := fun _ => false
          sockProbe := fun _ _ => false } [("root", "127.0.0.1")] "root" =
      (Except.ok "127.0.0.1", [("root", "127.0.0.1")], []) :=
  (getMySQL_cache_per_identity _ [] "root" "127.0.0.1"
    [("root", "127.0.0.1")] [Ev.version, Ev.probe (Cand.tcp "127.0.0.1")]
    (by decide)).1

/-- Claim C10. Failed detections are never cached: if
`detectMySQLConnection` throws for an uncached identity,
`getMySQLConnection` propagates the error, leaves the cache unchanged
(so a later call with the same identity re-probes in full), and — in
general — any failing call leaves the cache exactly as it found it, i.e.
only successful results are ever stored. -/
theorem getMySQL_no_cache_on_failure (env : MysqlEnv)
    (cache : List (String × String)) (user e : String)
    (hdet : (detectMySQLConnection env user).1 = Except.error e)
    (hmiss : cacheLookup user cache = none) :
    getMySQLConnection env cache user =
      (Except.error e, cache, (detectMySQLConnection env user).2) ∧
    (∀ c₀ u₀ e₀, (getMySQLConnection env c₀ u₀).1 = Except.error e₀ →
      (getMySQLConnection env c₀ u₀).2.1 = c₀) := by
  constructor
  · rw [getMySQLConnection, hmiss]
    simp only [Option.getD_none]
    rw [if_pos (by rfl)]
    cases hd : detectMySQLConnection env user with
    | mk fst tr =>
      rw [hd] at hdet
      simp only at hdet
      subst hdet
      rfl
  · intro c₀ u₀ e₀ h₀
    rw [getMySQLConnection] at h₀ ⊢
    by_cases hcond : ((cacheLookup u₀ c₀).getD "" == "") = true
    · rw [if_pos hcond] at h₀ ⊢
      cases hd : detectMySQLConnection env u₀ with
      | mk fst tr =>
        cases fst with
        | ok s => rw [hd] at h₀; exact Except.noConfusion h₀
        | error e' => rfl
    · rw [if_neg hcond] at h₀
      exact absurd h₀ (by simp)

set_option maxRecDepth 100000 in
/-- Witness for C10: empty cache, client invocable, every probe failing —
the call errors, the cache stays empty, and the trace is the full probe
sequence. -/
theorem getMySQL_no_cache_on_failure_witness :
    getMySQLConnection
        { mysqlClientOk := true
          tcpProbe := fun _ _ => false
          sockExists := fun _ => false
          sockProbe := fun _ _ => false } [] "root" =
      (Except.error noConnectionMessage, [],
       (detectMySQLConnection
        { mysqlClientOk := true
          tcpProbe := fun _ _ => false
          sockExists := fun _ => false
          sockProbe := fun _ _ => false } "root").2) :=
  (getMySQL_no_cache_on_failure _ [] "root" noConnectionMessage
    (by decide) (by decide)).1

/-! ## Substring lemmas -/

theorem isPrefixB_append_self : ∀ p r : List Char, isPrefixB p (p ++ r) = true := by
  intro p r
  induction p with
  | nil => rfl
  | cons c cs ih => simp [isPrefixB, ih]

theorem hasInfixB_of_isPrefixB (p s : List Char) (h : isPrefixB p s = true) :
    hasInfixB p s = true := by
  cases s with
  | nil => simpa [hasInfixB] using h
  | cons c cs => simp [hasInfixB, h]

theorem hasInfixB_append_left (p : List Char) :
    ∀ t s : List Char, hasInfixB p s = true → hasInfixB p (t ++ s) = true := by
  intro t
  induction t with
  | nil => intro s h; simpa using h
  | cons c cs ih => intro s h; simp [hasInfixB, ih s h]

theorem strHasSub_append_right (pre s pat : String)
    (h : strHasSub s pat = true) : strHasSub (pre ++ s) pat = true := by
  rw [strHasSub, String.data_append]
  exact hasInfixB_append_left _ _ _ h

theorem strHasSub_middle (pre v post : String) :
    strHasSub (pre ++ v ++ post) v = true := by
  rw [String.append_assoc]
  apply strHasSub_append_right
  rw [strHasSub, String.data_append]
  exact hasInfixB_of_isPrefixB _ _ (isPrefixB_append_self _ _)

/-- The missing-extensions issue description never contains `"outdated"`,
    whichever subset of the required extensions is missing. -/
theorem missing_ext_issue_not_outdated (q : String → Bool) :
    strHasSub ("Missing PHP extensions: " ++
      String.intercalate ", " (requiredExtensions.filter q)) "outdated" = false := by
  cases h1 : q "mysqli" <;> cases h2 : q "curl" <;> cases h3 : q "json" <;>
    cases h4 : q "mbstring" <;>
    simp only [requiredExtensions, List.filter_cons, List.filter_nil,
      h1, h2, h3, h4, if_true, if_false] <;> decide

/-! ## Issue-accumulator naturality: each check appends a tail that does
    not depend on the instance's prior issue list. -/

theorem checkWpCli_natural (env : DoctorEnv) (i : List Issue) :
    checkWpCli env i = ((checkWpCli env []).1, i ++ (checkWpCli env []).2) := by
  cases h : env.wpCliExists with
  | false => simp [checkWpCli, h]
  | true =>
    cases hv : env.wpCliVersionCmd with
    | ok o => simp [checkWpCli, h, hv]
    | error e => simp [checkWpCli, h, hv]

theorem checkPhp_natural (env : DoctorEnv) (i : List Issue) :
    checkPhp env i = ((checkPhp env []).1, i ++ (checkPhp env []).2) := by
  cases hv : env.phpVersionCmd with
  | error e => simp [checkPhp, hv]
  | ok stdout =>
    cases hp : phpParseVersion stdout with
    | none => simp [checkPhp, hv, hp]
    | some trip =>
      obtain ⟨v, maj, minr⟩ := trip
      cases hm : env.phpModulesCmd with
      | error e2 =>
        by_cases hold : maj < 7 ∨ (maj = 7 ∧ minr < 4) <;>
          simp [checkPhp, hv, hp, hm, hold]
      | ok extensions =>
        by_cases hold : maj < 7 ∨ (maj = 7 ∧ minr < 4) <;>
        by_cases hlen : (requiredExtensions.filter
            (fun ext => !(strHasSub extensions.toLower ext.toLower))).length > 0 <;>
          simp [checkPhp, hv, hp, hm, hold, hlen]

theorem checkMySQL_natural (env : DoctorEnv) (i : List Issue) :
    checkMySQL env i = ((checkMySQL env []).1, i ++ (checkMySQL env []).2) := by
  cases h : env.mysql.mysqlClientOk with
  | false => simp [checkMySQL, h]
  | true =>
    cases hd : (detectMySQLConnection env.mysql "root").1 with
    | ok c => simp [checkMySQL, h, hd]
    | error e => simp [checkMySQL, h, hd]

theorem checkHerd_natural (env : DoctorEnv) (i : List Issue) :
    checkHerd env i = ((checkHerd env []).1, i ++ (checkHerd env []).2) := by
  cases hv : env.herdVersionCmd with
  | ok o => simp [checkHerd, hv]
  | error e => simp [checkHerd, hv]

theorem permFold_shift (env : DoctorEnv) :
    ∀ (ds : List String) (fd : List String) (i j : List Issue),
      List.foldl (permStep env) (fd, i ++ j) ds =
        ((List.foldl (permStep env) (fd, j) ds).1,
         i ++ (List.foldl (permStep env) (fd, j) ds).2) := by
  intro ds
  induction ds with
  | nil => intro fd i j; simp
  | cons d ds ih =>
    intro fd i j
    simp only [List.foldl_cons, permStep]
    cases hw : env.writeOk d with
    | true => simp only [if_true]; exact ih fd i j
    | false =>
      simp only [Bool.false_eq_true, if_false]
      rw [List.append_assoc]
      exact ih (fd ++ [d]) i (j ++ [⟨"No write permission: " ++ d, "chmod 755 " ++ d⟩])

theorem checkPermissions_natural (env : DoctorEnv) (i : List Issue) :
    checkPermissions env i =
      ((checkPermissions env []).1, i ++ (checkPermissions env []).2) := by
  rw [checkPermissions, checkPermissions]
  have hi : (([] : List String), i) = (([] : List String), i ++ ([] : List Issue)) := by
    simp
  rw [hi, permFold_shift]
  split_ifs with hl <;> simp

theorem checkConfig_natural (env : DoctorEnv) (i : List Issue) :
    checkConfig env i = ((checkConfig env []).1, i ++ (checkConfig env []).2) := by
  cases hc : env.configLoad with
  | ok n => simp [checkConfig, hc]
  | error e => simp [checkConfig, hc]

/-- Claim C2. `runAllChecks` never raises: it is a total function of the
external-world behaviour — every check method is itself total, its JS
try/catch embedded as a match on the `Except`-valued command outcomes —
and it returns the full report (all six check results plus the
environment descriptor, by construction of `Report`).  When every
external dependency fails, the returned report's issue list is
non-empty. -/
theorem runAllChecks_total_failure (env : DoctorEnv) (h : env.allFail) :
    (runAllChecks env DoctorCheck.new).environment = getEnvironmentInfo env ∧
    0 < (runAllChecks env DoctorCheck.new).issues.length := by
  obtain ⟨h1, _, _, _, _, _, _, _⟩ := h
  refine ⟨rfl, ?_⟩
  have e1 : (checkWpCli env ([] : List Issue)).2 =
      [⟨"WP-CLI not found", "Will be auto-downloaded on first site creation"⟩] := by
    simp [checkWpCli, h1]
  show 0 < (checkConfig env (checkPermissions env (checkHerd env (checkMySQL env
    (checkPhp env (checkWpCli env DoctorCheck.new.issues).2).2).2).2).2).2.length
  have sub1 : DoctorCheck.new.issues = ([] : List Issue) := rfl
  rw [sub1, e1]
  rw [checkPhp_natural, checkMySQL_natural, checkHerd_natural,
    checkPermissions_natural, checkConfig_natural]
  simp

/-- Witness for C2: the all-failing environment. -/
theorem runAllChecks_total_failure_witness :
    (runAllChecks doctorEnvAllFail DoctorCheck.new).environment =
      getEnvironmentInfo doctorEnvAllFail ∧
    0 < (runAllChecks doctorEnvAllFail DoctorCheck.new).issues.length :=
  runAllChecks_total_failure doctorEnvAllFail
    ⟨rfl, rfl, rfl, rfl, rfl, rfl, fun _ => rfl, rfl⟩

/-- Claim C5. Determinism of the diagnostic battery: for a fixed
external-dependency behaviour, two executions of `runAllChecks`, each on
a freshly constructed `DoctorCheck` (whose constructor starts the issue
list empty, with no persistence across runs), produce equal reports — in
particular equal issue lists, same descriptions in the same order. -/
theorem runAllChecks_deterministic (env : DoctorEnv) (c₁ c₂ : DoctorCheck)
    (h₁ : c₁.issues = []) (h₂ : c₂.issues = []) :
    runAllChecks env c₁ = runAllChecks env c₂ := by
  rw [runAllChecks, runAllChecks, h₁, h₂]

/-- Witness for C5: two distinct fresh instances over the healthy
environment yield the same report. -/
theorem runAllChecks_deterministic_witness :
    runAllChecks baseDoctorEnv { checks := [⟨"a", "b"⟩], issues := [] } =
      runAllChecks baseDoctorEnv DoctorCheck.new :=
  runAllChecks_deterministic baseDoctorEnv _ _ rfl rfl

/-- Claim C6, counterexample. The claim "whenever the interpreter is
invocable, `checkPhp` does not return error `Not installed`" fails on the
code: with `php --version` succeeding (stdout `PHP 8.2.15 (cli)`) but
`php -m` rejecting, the shared catch branch still returns
`error: "Not installed"`. -/
theorem checkPhp_not_installed_despite_invocable :
    phpEnvModulesFail.phpVersionCmd = Except.ok "PHP 8.2.15 (cli)" ∧
    (checkPhp phpEnvModulesFail []).1.error = some "Not installed" := by
  exact ⟨rfl, by decide⟩

/-- Claim C6, amended. `checkPhp` returns error `"Not installed"` exactly
when its try block fails: the version invocation rejects, the version
output is unparsable, or the extension-listing invocation rejects.  In
particular, when both invocations succeed and a version parses — below
minimum or not, extensions missing or not — the result is `ok: true`
with no error. -/
theorem checkPhp_not_installed_characterization (env : DoctorEnv)
    (issues : List Issue) :
    (checkPhp env issues).1.error = some "Not installed" ↔
      (env.phpVersionCmd.isOk = false ∨
       (∃ s, env.phpVersionCmd = Except.ok s ∧ phpParseVersion s = none) ∨
       (env.phpModulesCmd.isOk = false ∧
        ∃ s out, env.phpVersionCmd = Except.ok s ∧
          phpParseVersion s = some out)) := by
  cases hv : env.phpVersionCmd with
  | error e => simp [checkPhp, hv, Except.isOk, Except.toBool]
  | ok s =>
    cases hp : phpParseVersion s with
    | none => simp [checkPhp, hv, hp, Except.isOk, Except.toBool]
    | some trip =>
      obtain ⟨v, maj, minr⟩ := trip
      cases hm : env.phpModulesCmd with
      | error e2 =>
        by_cases hold : maj < 7 ∨ (maj = 7 ∧ minr < 4) <;>
          simp [checkPhp, hv, hp, hm, hold, Except.isOk, Except.toBool]
      | ok m =>
        by_cases hold : maj < 7 ∨ (maj = 7 ∧ minr < 4) <;>
        by_cases hlen : (requiredExtensions.filter
            (fun ext => !(strHasSub m.toLower ext.toLower))).length > 0 <;>
          simp [checkPhp, hv, hp, hm, hold, hlen, Except.isOk, Except.toBool]

/-- Claim C8. Binary-missing and binary-present-but-erroring are
distinguishable: `checkWpCli` answers `"Not found"` for a missing phar
file versus `"Not accessible"` for a present-but-failing one, and
`checkMySQL` answers `"MySQL client not installed"` for a non-invocable
client versus `"Not accessible"` when the client works but no transport
negotiates; the paired `error` strings differ. -/
theorem distinct_error_kinds
    (e1 e2 e3 e4 : DoctorEnv) (i1 i2 i3 i4 : List Issue)
    (h1 : e1.wpCliExists = false)
    (h2a : e2.wpCliExists = true)
    (h2b : e2.wpCliVersionCmd.isOk = false)
    (h3 : e3.mysql.mysqlClientOk = false)
    (h4a : e4.mysql.mysqlClientOk = true)
    (h4b : (detectMySQLConnection e4.mysql "root").1.isOk = false) :
    (checkWpCli e1 i1).1.error = some "Not found" ∧
    (checkWpCli e2 i2).1.error = some "Not accessible" ∧
    (checkMySQL e3 i3).1.error = some "MySQL client not installed" ∧
    (checkMySQL e4 i4).1.error = some "Not accessible" ∧
    ("Not found" : String) ≠ "Not accessible" ∧
    ("MySQL client not installed" : String) ≠ "Not accessible" := by
  refine ⟨?_, ?_, ?_, ?_, by decide, by decide⟩
  · simp [checkWpCli, h1]
  · cases hv : e2.wpCliVersionCmd with
    | ok o => rw [hv] at h2b; exact absurd h2b (by simp [Except.isOk, Except.toBool])
    | error e => simp [checkWpCli, h2a, hv]
  · simp [checkMySQL, h3]
  · cases hd : (detectMySQLConnection e4.mysql "root").1 with
    | ok c => rw [hd] at h4b; exact absurd h4b (by simp [Except.isOk, Except.toBool])
    | error e => simp [checkMySQL, h4a, hd]

/-- Witness for C8: the four error situations at concrete environments. -/
theorem distinct_error_kinds_witness :
    (checkWpCli wpCliMissingEnv []).1.error = some "Not found" ∧
    (checkWpCli wpCliErrEnv []).1.error = some "Not accessible" ∧
    (checkMySQL mysqlClientMissingEnv []).1.error = some "MySQL client not installed" ∧
    (checkMySQL mysqlNoTransportEnv []).1.error = some "Not accessible" ∧
    ("Not found" : String) ≠ "Not accessible" ∧
    ("MySQL client not installed" : String) ≠ "Not accessible" :=
  distinct_error_kinds wpCliMissingEnv wpCliErrEnv mysqlClientMissingEnv
    mysqlNoTransportEnv [] [] [] [] rfl rfl rfl rfl rfl (by decide)

/-- Claim C9. A below-minimum PHP version is non-fatal: when the parsed
version triple is below 7.4 and both `php` invocations succeed,
`checkPhp` reports `ok: true` with that version, and among the issues it
appends there is exactly one whose description contains both the parsed
version string and the word `outdated`. -/
theorem checkPhp_outdated_nonfatal (env : DoctorEnv) (issues : List Issue)
    (s v : String) (maj minr : Nat) (m : String)
    (hv : env.phpVersionCmd = Except.ok s)
    (hp : phpParseVersion s = some (v, maj, minr))
    (hold : maj < 7 ∨ (maj = 7 ∧ minr < 4))
    (hm : env.phpModulesCmd = Except.ok m) :
    (checkPhp env issues).1.ok = true ∧
    (checkPhp env issues).1.version = some v ∧
    (((checkPhp env issues).2).drop issues.length).countP
      (fun i => strHasSub i.description v && strHasSub i.description "outdated") = 1 := by
  have hout1 : strHasSub ("PHP " ++ v ++ " is outdated (minimum: 7.4)") v = true :=
    strHasSub_middle "PHP " v " is outdated (minimum: 7.4)"
  have hout2 : strHasSub ("PHP " ++ v ++ " is outdated (minimum: 7.4)") "outdated" = true := by
    rw [String.append_assoc]
    apply strHasSub_append_right
    apply strHasSub_append_right
    decide
  have hext := missing_ext_issue_not_outdated
    (fun ext => !(strHasSub m.toLower ext.toLower))
  by_cases hlen : (requiredExtensions.filter
      (fun ext => !(strHasSub m.toLower ext.toLower))).length > 0
  · refine ⟨by simp [checkPhp, hv, hp, hm, hold, hlen],
      by simp [checkPhp, hv, hp, hm, hold, hlen], ?_⟩
    simp only [checkPhp, hv, hp, hm, hold, hlen, if_true, iff_true]
    rw [List.append_assoc, List.drop_left]
    simp [List.countP_cons, hout1, hout2, hext]
  · refine ⟨by simp [checkPhp, hv, hp, hm, hold, hlen],
      by simp [checkPhp, hv, hp, hm, hold, hlen], ?_⟩
    simp only [checkPhp, hv, hp, hm, hold, hlen, if_true, iff_true, if_false]
    rw [List.drop_left]
    simp [List.countP_cons, hout1, hout2]

set_option maxRecDepth 40000 in
/-- Witness for C9, the spec's Scenario C: stdout `PHP 7.3.0 (cli)`
against minimum 7.4. -/
theorem checkPhp_outdated_nonfatal_witness :
    (checkPhp phpEnvOld []).1.ok = true ∧
    (checkPhp phpEnvOld []).1.version = some "7.3.0" ∧
    (((checkPhp phpEnvOld []).2).drop ([] : List Issue).length).countP
      (fun i => strHasSub i.description "7.3.0" &&
        strHasSub i.description "outdated") = 1 :=
  checkPhp_outdated_nonfatal phpEnvOld [] "PHP 7.3.0 (cli)" "7.3.0" 7 3
    "mysqli\ncurl\njson\nmbstring\nxml" rfl (by decide)
    (Or.inr ⟨rfl, by decide⟩) rfl

end Wpmax
